import Mathlib

/-!
Shallow embedding of `src/rye/src/sync.rs` (the `sync` orchestrator of the
rye project).  External collaborators (bootstrap, toolchain fetch, the lock
driver, the virtualenv tool, pip-sync, the filesystem) are modelled by an
`Env` record that fixes the outcome of each call the orchestrator makes;
`sync` itself is translated statement by statement from the source.  The
observable behaviour is captured as a result value, a chronological trace
of effects, and the final state of the virtualenv directory and its marker
file.
-/

namespace Rye

/-- `SyncMode` from sync.rs: PythonOnly, LockOnly, Regular, Full. -/
inductive SyncMode
  | PythonOnly
  | LockOnly
  | Regular
  | Full
deriving DecidableEq, Repr

/-- Verbosity levels of `CommandOutput` (crate::utils). -/
inductive CommandOutput
  | Quiet
  | Normal
  | Verbose
deriving DecidableEq, Repr

/-- `LockMode` from crate::lock: production or dev lockfile generation. -/
inductive LockMode
  | Production
  | Dev
deriving DecidableEq, Repr

/-- An interpreter version (`PythonVersion` from crate::sources), used as an
opaque value compared for equality in drift detection. -/
structure PythonVersion where
  major : Nat
  minor : Nat
  patch : Nat
deriving DecidableEq, Repr

/-- `SyncOptions` from sync.rs (lock_options is opaque and never inspected
by the orchestrator, so it is omitted). -/
structure SyncOptions where
  output : CommandOutput
  dev : Bool
  mode : SyncMode
  force : Bool
deriving DecidableEq, Repr

/-- Content of the `rye-venv.json` marker file: either a well-formed
`VenvMarker { python }` record or unparseable bytes. -/
inductive MarkerFile
  | wellFormed (python : PythonVersion)
  | malformed
deriving DecidableEq, Repr

/-- The distinct failure exits of `sync`, one per `bail!` or `?`-propagated
context in the source. -/
inductive SyncError
  | bootstrapFailed
  | markerReadFailed
  | malformedMarker
  | notManaged
  | fetchFailed
  | tempDirFailed
  | symlinkFailed
  | lockProdFailed
  | lockDevFailed
  | createVenvFailed
  | markerWriteFailed
  | pipSyncSpawnFailed
  | pipSyncFailed
deriving DecidableEq, Repr

/-- Which lock artifact path is handed to pip-sync as the install source. -/
inductive LockSource
  | prodLock
  | devLock
deriving DecidableEq, Repr

/-- Observable effects of a sync run, in chronological order. -/
inductive Event
  | warnVersionMismatch
  | warnForceRecreate
  | removeDirAll
  | reuseMsg
  | initMsg (v : PythonVersion)
  | createVenv (v : PythonVersion)
  | writeMarker (v : PythonVersion)
  | tempDirCreate
  | symlinkPip
  | tempDirRelease
  | lockWorkspace (m : LockMode)
  | lockSingle (m : LockMode)
  | installMsg
  | pipSync (src : LockSource)
  | doneMsg
deriving DecidableEq, Repr

/-- Outcomes of every external call `sync` can make, fixed up front.  Fields
mirror the call sites in sync.rs in order of first use. -/
structure Env where
  venvIsDir : Bool
  markerFile : Option MarkerFile
  markerReadOk : Bool
  loadedPyVer : PythonVersion
  bootstrapOk : Bool
  fetchResult : Option PythonVersion
  removeOk : Bool
  tempDirOk : Bool
  symlinkOk : Bool
  hasWorkspace : Bool
  lockProdOk : Bool
  lockDevOk : Bool
  createVenvOk : Bool
  markerWriteOk : Bool
  devLockfileIsFile : Bool
  pipSyncSpawnOk : Bool
  pipSyncExitOk : Bool
deriving DecidableEq, Repr

/-- The virtualenv directory state the orchestrator mutates: presence of the
directory and content of the marker file inside it. -/
structure FsState where
  venvIsDir : Bool
  markerFile : Option MarkerFile
deriving DecidableEq, Repr

/-- Result of a sync run: terminal status, effect trace, final directory
state. -/
structure SyncResult where
  result : Except SyncError Unit
  events : List Event
  final : FsState
deriving Repr

/-- An eprintln-style message that is suppressed in quiet mode. -/
def warnEvents (output : CommandOutput) (e : Event) : List Event :=
  if output == CommandOutput.Quiet then [] else [e]

/-- Lines 78-101 of sync.rs: classify the existing directory and decide the
`recreate` flag, or fail (marker read error, malformed marker, unmanaged
without force). -/
def classify (cmd : SyncOptions) (env : Env) : Except SyncError (Bool × List Event) :=
  if env.venvIsDir then
    match env.markerFile with
    | some mf =>
      if env.markerReadOk then
        match mf with
        | MarkerFile.malformed => Except.error SyncError.malformedMarker
        | MarkerFile.wellFormed mPy =>
          if mPy ≠ env.loadedPyVer then
            Except.ok (true, warnEvents cmd.output Event.warnVersionMismatch)
          else
            Except.ok (cmd.mode == SyncMode.Full, [])
      else
        Except.error SyncError.markerReadFailed
    | none =>
      if cmd.force then
        Except.ok (true, warnEvents cmd.output Event.warnForceRecreate)
      else
        Except.error SyncError.notManaged
  else
    Except.ok (cmd.mode == SyncMode.Full, [])

/-- The recreate flag `sync` computes, when classification succeeds. -/
def recreateDecision (cmd : SyncOptions) (env : Env) : Option Bool :=
  match classify cmd env with
  | Except.ok (r, _) => some r
  | Except.error _ => none

/-- Lines 107-110 of sync.rs: `if recreate { fs::remove_dir_all(&venv).ok(); }`.
The removal error is discarded, so a failed removal leaves the directory in
place without aborting the run. -/
def removePhase (recreate : Bool) (env : Env) (st : FsState) : FsState × List Event :=
  if recreate then
    if st.venvIsDir && env.removeOk then
      (⟨false, none⟩, [Event.removeDirAll])
    else
      (st, [Event.removeDirAll])
  else
    (st, [])

/-- Lines 112-134 of sync.rs: reuse the directory if it is (still) there,
otherwise create a fresh virtualenv and write the marker file recording the
fetched interpreter version. -/
def createPhase (cmd : SyncOptions) (env : Env) (pv : PythonVersion) (st : FsState) :
    Except SyncError Unit × FsState × List Event :=
  if st.venvIsDir then
    (Except.ok (), st,
      if !(cmd.mode == SyncMode.PythonOnly || cmd.mode == SyncMode.LockOnly)
          && !(cmd.output == CommandOutput.Quiet) then
        [Event.reuseMsg]
      else
        [])
  else
    let evs := (if cmd.output == CommandOutput.Quiet then [] else [Event.initMsg pv])
      ++ [Event.createVenv pv]
    if env.createVenvOk then
      if env.markerWriteOk then
        (Except.ok (), ⟨true, some (MarkerFile.wellFormed pv)⟩,
          evs ++ [Event.writeMarker pv])
      else
        (Except.error SyncError.markerWriteFailed, ⟨true, st.markerFile⟩,
          evs ++ [Event.writeMarker pv])
    else
      (Except.error SyncError.createVenvFailed, st, evs)

/-- Lines 145-181 of sync.rs: regenerate both lock artifacts through the
workspace or single-project entry point; a failing production call aborts
before the dev call. -/
def lockCalls (env : Env) : Except SyncError Unit × List Event :=
  if env.hasWorkspace then
    if env.lockProdOk then
      if env.lockDevOk then
        (Except.ok (),
          [Event.lockWorkspace LockMode.Production, Event.lockWorkspace LockMode.Dev])
      else
        (Except.error SyncError.lockDevFailed,
          [Event.lockWorkspace LockMode.Production, Event.lockWorkspace LockMode.Dev])
    else
      (Except.error SyncError.lockProdFailed, [Event.lockWorkspace LockMode.Production])
  else
    if env.lockProdOk then
      if env.lockDevOk then
        (Except.ok (),
          [Event.lockSingle LockMode.Production, Event.lockSingle LockMode.Dev])
      else
        (Except.error SyncError.lockDevFailed,
          [Event.lockSingle LockMode.Production, Event.lockSingle LockMode.Dev])
    else
      (Except.error SyncError.lockProdFailed, [Event.lockSingle LockMode.Production])

/-- Lines 184-221 of sync.rs: unless the mode is LockOnly, run pip-sync with
exactly one lockfile argument — the dev artifact if `dev` is set and the dev
lockfile exists, else the production artifact. -/
def installCall (cmd : SyncOptions) (env : Env) : Except SyncError Unit × List Event :=
  if cmd.mode == SyncMode.LockOnly then
    (Except.ok (), [])
  else
    let src := if cmd.dev && env.devLockfileIsFile then LockSource.devLock
      else LockSource.prodLock
    let evs := (if cmd.output == CommandOutput.Quiet then [] else [Event.installMsg])
      ++ [Event.pipSync src]
    if env.pipSyncSpawnOk then
      if env.pipSyncExitOk then
        (Except.ok (), evs)
      else
        (Except.error SyncError.pipSyncFailed, evs)
    else
      (Except.error SyncError.pipSyncSpawnFailed, evs)

/-- Body of the TempDir scope in sync.rs (lines 142-221): symlink pip, run
the lock calls, then the install call. -/
def innerBlock (cmd : SyncOptions) (env : Env) : Except SyncError Unit × List Event :=
  if env.symlinkOk then
    match lockCalls env with
    | (Except.ok _, evs) =>
      let ic := installCall cmd env
      (ic.1, Event.symlinkPip :: (evs ++ ic.2))
    | (Except.error e, evs) => (Except.error e, Event.symlinkPip :: evs)
  else
    (Except.error SyncError.symlinkFailed, [Event.symlinkPip])

/-- Lines 140-222 of sync.rs: the lock-and-install block, entered when
`recreate || cmd.mode != SyncMode::PythonOnly`.  The TempDir is acquired on
entry and, by RAII, released on every exit path of the block. -/
def installBlock (cmd : SyncOptions) (env : Env) (recreate : Bool) :
    Except SyncError Unit × List Event :=
  if recreate || cmd.mode != SyncMode.PythonOnly then
    if env.tempDirOk then
      let ib := innerBlock cmd env
      (ib.1, Event.tempDirCreate :: ib.2 ++ [Event.tempDirRelease])
    else
      (Except.error SyncError.tempDirFailed, [])
  else
    (Except.ok (), [])

/-- The run from the toolchain fetch (line 104) to the end, given the
already-decided recreate flag. -/
def syncRest (cmd : SyncOptions) (env : Env) (recreate : Bool) : SyncResult :=
  let st0 : FsState := ⟨env.venvIsDir, env.markerFile⟩
  match env.fetchResult with
  | none => ⟨Except.error SyncError.fetchFailed, [], st0⟩
  | some pv =>
    let rp := removePhase recreate env st0
    let cp := createPhase cmd env pv rp.1
    match cp.1 with
    | Except.error e => ⟨Except.error e, rp.2 ++ cp.2.2, cp.2.1⟩
    | Except.ok _ =>
      let ib := installBlock cmd env recreate
      match ib.1 with
      | Except.error e => ⟨Except.error e, rp.2 ++ cp.2.2 ++ ib.2, cp.2.1⟩
      | Except.ok _ =>
        ⟨Except.ok (),
          rp.2 ++ cp.2.2 ++ ib.2 ++
            (if !(cmd.output == CommandOutput.Quiet)
                && !(cmd.mode == SyncMode.PythonOnly) then
              [Event.doneMsg]
            else
              []),
          cp.2.1⟩

/-- `sync` from sync.rs: bootstrap, classify, then the rest of the run. -/
def sync (cmd : SyncOptions) (env : Env) : SyncResult :=
  let st0 : FsState := ⟨env.venvIsDir, env.markerFile⟩
  if env.bootstrapOk then
    match classify cmd env with
    | Except.error e => ⟨Except.error e, [], st0⟩
    | Except.ok (recreate, evs1) =>
      let r := syncRest cmd env recreate
      ⟨r.result, evs1 ++ r.events, r.final⟩
  else
    ⟨Except.error SyncError.bootstrapFailed, [], st0⟩

/-- Is this event a call into the lock driver? -/
def Event.isLockCall : Event → Bool
  | Event.lockWorkspace _ => true
  | Event.lockSingle _ => true
  | _ => false

/-- The lock mode of a lock-driver call event, if it is one. -/
def Event.lockCallMode : Event → Option LockMode
  | Event.lockWorkspace m => some m
  | Event.lockSingle m => some m
  | _ => none

/-- Is this event an invocation of pip-sync? -/
def Event.isPipSync : Event → Bool
  | Event.pipSync _ => true
  | _ => false

/-- Is this event a virtualenv creation? -/
def Event.isCreateVenv : Event → Bool
  | Event.createVenv _ => true
  | _ => false

/-- Is this event a marker-file write? -/
def Event.isWriteMarker : Event → Bool
  | Event.writeMarker _ => true
  | _ => false

/-- Does this event happen only inside the TempDir block of sync.rs? -/
def Event.isBlockEvent : Event → Bool
  | Event.tempDirCreate => true
  | Event.symlinkPip => true
  | Event.tempDirRelease => true
  | Event.lockWorkspace _ => true
  | Event.lockSingle _ => true
  | Event.installMsg => true
  | Event.pipSync _ => true
  | _ => false

/-- The events contributed by the TempDir block during a sync run: the
block's events when the run reaches line 140 of sync.rs, nothing
otherwise. -/
def blockEvents (cmd : SyncOptions) (env : Env) : List Event :=
  if env.bootstrapOk then
    match classify cmd env with
    | Except.error _ => []
    | Except.ok (recreate, _) =>
      match env.fetchResult with
      | none => []
      | some pv =>
        match (createPhase cmd env pv
            (removePhase recreate env ⟨env.venvIsDir, env.markerFile⟩).1).1 with
        | Except.error _ => []
        | Except.ok _ => (installBlock cmd env recreate).2
  else []

/-- Is this event a mutation of the environment directory (removal,
creation, or marker write)? -/
def isMutation (e : Event) : Bool :=
  e == Event.removeDirAll || (e.isCreateVenv || e.isWriteMarker)

/-- The directory mutations of a trace, in order. -/
def mutationEvents (t : List Event) : List Event :=
  t.filter isMutation

/-- A fully cooperative environment: no directory yet, every external call
succeeds. -/
def baseEnv : Env where
  venvIsDir := false
  markerFile := none
  markerReadOk := true
  loadedPyVer := ⟨3, 11, 0⟩
  bootstrapOk := true
  fetchResult := some ⟨3, 11, 4⟩
  removeOk := true
  tempDirOk := true
  symlinkOk := true
  hasWorkspace := false
  lockProdOk := true
  lockDevOk := true
  createVenvOk := true
  markerWriteOk := true
  devLockfileIsFile := false
  pipSyncSpawnOk := true
  pipSyncExitOk := true

/-- A directory with no marker file inside. -/
def envUnmanaged : Env := { baseEnv with venvIsDir := true }

/-- A managed directory whose marker records an older interpreter than the
loaded target. -/
def envDrifted : Env :=
  { baseEnv with
    venvIsDir := true
    markerFile := some (MarkerFile.wellFormed ⟨3, 10, 0⟩) }

/-- A directory whose marker file does not parse. -/
def envMalformed : Env :=
  { baseEnv with venvIsDir := true, markerFile := some MarkerFile.malformed }

/-- A valid managed directory matching the loaded interpreter version. -/
def envManaged : Env :=
  { baseEnv with
    venvIsDir := true
    markerFile := some (MarkerFile.wellFormed ⟨3, 11, 0⟩) }

/-- A valid managed directory whose recursive removal fails. -/
def envRemoveFail : Env :=
  { baseEnv with
    venvIsDir := true
    markerFile := some (MarkerFile.wellFormed ⟨3, 11, 0⟩)
    removeOk := false }

/-- Every event produced by a quiet-suppressible message is that message. -/
theorem mem_warnEvents {o : CommandOutput} {w e : Event}
    (h : e ∈ warnEvents o w) : e = w := by
  unfold warnEvents at h
  split at h <;> simp_all

/-- A successful classification emits at most warning messages. -/
theorem classify_ok_mem {cmd : SyncOptions} {env : Env} {r : Bool} {evs : List Event}
    (h : classify cmd env = Except.ok (r, evs)) {e : Event} (he : e ∈ evs) :
    e = Event.warnVersionMismatch ∨ e = Event.warnForceRecreate := by
  unfold classify at h
  repeat' split at h
  any_goals exact Except.noConfusion h
  all_goals simp only [Except.ok.injEq, Prod.mk.injEq] at h
  all_goals obtain ⟨-, h2⟩ := h
  all_goals subst h2
  all_goals first
    | exact absurd he (by simp)
    | (have hw := mem_warnEvents he
       subst hw
       simp)

/-- The removal phase emits only the directory-removal effect. -/
theorem mem_removePhase {r : Bool} {env : Env} {st : FsState} {e : Event}
    (h : e ∈ (removePhase r env st).2) : e = Event.removeDirAll := by
  unfold removePhase at h
  repeat' split at h
  all_goals simp_all

/-- The reuse-or-create phase emits only the reuse message or the creation
effects for the fetched version. -/
theorem mem_createPhase {cmd : SyncOptions} {env : Env} {pv : PythonVersion}
    {st : FsState} {e : Event} (h : e ∈ (createPhase cmd env pv st).2.2) :
    e = Event.reuseMsg ∨ e = Event.initMsg pv ∨ e = Event.createVenv pv
      ∨ e = Event.writeMarker pv := by
  unfold createPhase at h
  repeat' split at h
  all_goals simp_all
  all_goals tauto

/-- Every event of the lock phase is a lock-driver call. -/
theorem mem_lockCalls {env : Env} {e : Event} (h : e ∈ (lockCalls env).2) :
    e.isLockCall = true := by
  unfold lockCalls at h
  repeat' split at h
  all_goals simp_all [Event.isLockCall]
  all_goals rcases h with rfl | rfl <;> rfl

/-- The install call emits only the progress message and one pip-sync
invocation. -/
theorem mem_installCall {cmd : SyncOptions} {env : Env} {e : Event}
    (h : e ∈ (installCall cmd env).2) :
    e = Event.installMsg ∨ ∃ s, e = Event.pipSync s := by
  unfold installCall at h
  repeat' split at h
  all_goals simp_all
  all_goals rcases h with rfl | rfl
  all_goals simp

/-- A list all of whose members falsify `p` has `countP p` zero. -/
theorem countP_zero_of_mem {l : List Event} {p : Event → Bool}
    (h : ∀ e ∈ l, p e = false) : l.countP p = 0 :=
  List.countP_eq_zero.mpr (by intro a ha; simp [h a ha])

/-- Quiet-suppressible messages contribute nothing to a count that ignores
the message. -/
theorem warnEvents_countP {p : Event → Bool} {w : Event} (o : CommandOutput)
    (hp : p w = false) : (warnEvents o w).countP p = 0 :=
  countP_zero_of_mem (fun _e he => mem_warnEvents he ▸ hp)

/-- Classification events contribute nothing to a count that ignores both
warnings. -/
theorem classify_ok_countP {cmd : SyncOptions} {env : Env} {r : Bool}
    {evs : List Event} {p : Event → Bool} (h : classify cmd env = Except.ok (r, evs))
    (hw1 : p Event.warnVersionMismatch = false)
    (hw2 : p Event.warnForceRecreate = false) : evs.countP p = 0 :=
  countP_zero_of_mem (by
    intro e he
    rcases classify_ok_mem h he with rfl | rfl <;> assumption)

/-- Removal events contribute nothing to a count that ignores the removal
effect. -/
theorem removePhase_countP (r : Bool) (env : Env) (st : FsState) {p : Event → Bool}
    (hrm : p Event.removeDirAll = false) : (removePhase r env st).2.countP p = 0 :=
  countP_zero_of_mem (fun _e he => mem_removePhase he ▸ hrm)

/-- Create-phase events contribute nothing to a count that ignores them. -/
theorem createPhase_countP (cmd : SyncOptions) (env : Env) (pv : PythonVersion)
    (st : FsState) {p : Event → Bool}
    (hru : p Event.reuseMsg = false) (hin : ∀ v, p (Event.initMsg v) = false)
    (hcr : ∀ v, p (Event.createVenv v) = false)
    (hwm : ∀ v, p (Event.writeMarker v) = false) :
    (createPhase cmd env pv st).2.2.countP p = 0 :=
  countP_zero_of_mem (by
    intro e he
    rcases mem_createPhase he with rfl | rfl | rfl | rfl
    · exact hru
    · exact hin pv
    · exact hcr pv
    · exact hwm pv)

/-- A lock-driver call happens only inside the TempDir block. -/
theorem isBlockEvent_of_isLockCall {e : Event} (h : e.isLockCall = true) :
    e.isBlockEvent = true := by
  cases e <;> simp_all [Event.isLockCall, Event.isBlockEvent]

/-- Every event of the body of the TempDir block is a block-only event. -/
theorem mem_innerBlock {cmd : SyncOptions} {env : Env} {e : Event}
    (h : e ∈ (innerBlock cmd env).2) : e.isBlockEvent = true := by
  unfold innerBlock at h
  split at h
  · rcases hl : lockCalls env with ⟨res, evs⟩
    rw [hl] at h
    rcases res with err | u
    · simp only [List.mem_cons] at h
      rcases h with rfl | h
      · rfl
      · exact isBlockEvent_of_isLockCall
          (mem_lockCalls (show e ∈ (lockCalls env).2 by rw [hl]; exact h))
    · simp only [List.mem_cons, List.mem_append] at h
      rcases h with rfl | h | h
      · rfl
      · exact isBlockEvent_of_isLockCall
          (mem_lockCalls (show e ∈ (lockCalls env).2 by rw [hl]; exact h))
      · rcases mem_installCall h with rfl | ⟨s, rfl⟩ <;> rfl
  · simp only [List.mem_singleton] at h
    subst h
    rfl

/-- Every event of the TempDir block is a block-only event. -/
theorem mem_installBlock {cmd : SyncOptions} {env : Env} {r : Bool} {e : Event}
    (h : e ∈ (installBlock cmd env r).2) : e.isBlockEvent = true := by
  unfold installBlock at h
  split at h
  · split at h
    · simp only [List.mem_cons, List.mem_append, List.mem_singleton] at h
      rcases h with (rfl | h) | rfl | h
      · rfl
      · exact mem_innerBlock h
      · rfl
      · simp at h
    · simp at h
  · simp at h

/-- When sync fails before the toolchain fetch, its trace is empty. -/
theorem sync_events_early (cmd : SyncOptions) (env : Env) :
    (env.bootstrapOk = false → (sync cmd env).events = []) ∧
    (∀ err, classify cmd env = Except.error err → (sync cmd env).events = []) ∧
    (∀ r evs, env.bootstrapOk = true → classify cmd env = Except.ok (r, evs) →
      env.fetchResult = none → (sync cmd env).events = evs) := by
  refine ⟨fun hb => ?_, fun err hcls => ?_, fun r evs hb hcls hf => ?_⟩
  · simp [sync, hb]
  · cases hb : env.bootstrapOk
    · simp [sync, hb]
    · simp [sync, hb, hcls]
  · simp [sync, syncRest, hb, hcls, hf]

/-- When sync reaches the toolchain fetch, its trace is the classification
warnings, the removal events, the reuse-or-create events, and then either
nothing (creation failed), the TempDir block's events, or the block's events
followed by the completion message. -/
theorem sync_events_shape {cmd : SyncOptions} {env : Env} {r : Bool}
    {evs : List Event} {pv : PythonVersion} (hb : env.bootstrapOk = true)
    (hcls : classify cmd env = Except.ok (r, evs))
    (hf : env.fetchResult = some pv) :
    ∃ tail,
      (sync cmd env).events =
        evs ++ ((removePhase r env ⟨env.venvIsDir, env.markerFile⟩).2
          ++ ((createPhase cmd env pv
              (removePhase r env ⟨env.venvIsDir, env.markerFile⟩).1).2.2 ++ tail)) ∧
      (tail = [] ∨ tail = (installBlock cmd env r).2
        ∨ tail = (installBlock cmd env r).2 ++ [Event.doneMsg]) := by
  simp only [sync, syncRest, hb, hcls, hf, if_true]
  rcases hcp : (createPhase cmd env pv
      (removePhase r env ⟨env.venvIsDir, env.markerFile⟩).1).1 with cerr | cu
  · refine ⟨[], ?_, Or.inl rfl⟩
    simp [hcp, List.append_assoc]
  · rcases hib : (installBlock cmd env r).1 with berr | bu
    · refine ⟨(installBlock cmd env r).2, ?_, Or.inr (Or.inl rfl)⟩
      simp [hcp, hib, List.append_assoc]
    · by_cases hq : (!(cmd.output == CommandOutput.Quiet)
          && !(cmd.mode == SyncMode.PythonOnly)) = true
      · refine ⟨(installBlock cmd env r).2 ++ [Event.doneMsg], ?_, Or.inr (Or.inr rfl)⟩
        simp [hcp, hib, hq, List.append_assoc]
      · refine ⟨(installBlock cmd env r).2, ?_, Or.inr (Or.inl rfl)⟩
        simp only [Bool.not_eq_true] at hq
        simp [hcp, hib, hq, List.append_assoc]

/-- Counting block-only effects over a whole sync trace reduces to counting
them over the TempDir block (or to zero when the block is never reached). -/
theorem sync_countP (cmd : SyncOptions) (env : Env) (p : Event → Bool)
    (hw1 : p Event.warnVersionMismatch = false)
    (hw2 : p Event.warnForceRecreate = false)
    (hrm : p Event.removeDirAll = false) (hru : p Event.reuseMsg = false)
    (hin : ∀ v, p (Event.initMsg v) = false)
    (hcr : ∀ v, p (Event.createVenv v) = false)
    (hwm : ∀ v, p (Event.writeMarker v) = false)
    (hdn : p Event.doneMsg = false) :
    (sync cmd env).events.countP p = (blockEvents cmd env).countP p := by
  rcases hb : env.bootstrapOk with _ | _
  · rw [(sync_events_early cmd env).1 hb]
    simp [blockEvents, hb]
  rcases hcls : classify cmd env with err | ⟨r, evs⟩
  · rw [(sync_events_early cmd env).2.1 err hcls]
    simp [blockEvents, hb, hcls]
  rcases hf : env.fetchResult with _ | pv
  · rw [(sync_events_early cmd env).2.2 r evs hb hcls hf]
    rw [classify_ok_countP hcls hw1 hw2]
    simp [blockEvents, hb, hcls, hf]
  · have hz1 := classify_ok_countP hcls hw1 hw2
    have hz2 := removePhase_countP r env ⟨env.venvIsDir, env.markerFile⟩ hrm
    have hz3 := createPhase_countP cmd env pv
      (removePhase r env ⟨env.venvIsDir, env.markerFile⟩).1 hru hin hcr hwm
    rcases hcp : (createPhase cmd env pv
        (removePhase r env ⟨env.venvIsDir, env.markerFile⟩).1).1 with e1 | u1
    · have hev : (sync cmd env).events
          = evs ++ ((removePhase r env ⟨env.venvIsDir, env.markerFile⟩).2
            ++ (createPhase cmd env pv
              (removePhase r env ⟨env.venvIsDir, env.markerFile⟩).1).2.2) := by
        simp [sync, syncRest, hb, hcls, hf, hcp, List.append_assoc]
      rw [hev]
      simp [blockEvents, hb, hcls, hf, hcp, List.countP_append, hz1, hz2, hz3]
    · have hbe : blockEvents cmd env = (installBlock cmd env r).2 := by
        simp [blockEvents, hb, hcls, hf, hcp]
      rcases hib : (installBlock cmd env r).1 with e2 | u2
      · have hev : (sync cmd env).events
            = evs ++ ((removePhase r env ⟨env.venvIsDir, env.markerFile⟩).2
              ++ ((createPhase cmd env pv
                (removePhase r env ⟨env.venvIsDir, env.markerFile⟩).1).2.2
                ++ (installBlock cmd env r).2)) := by
          simp [sync, syncRest, hb, hcls, hf, hcp, hib, List.append_assoc]
        rw [hev, hbe]
        simp [List.countP_append, hz1, hz2, hz3]
      · have hev : (sync cmd env).events
            = evs ++ ((removePhase r env ⟨env.venvIsDir, env.markerFile⟩).2
              ++ ((createPhase cmd env pv
                (removePhase r env ⟨env.venvIsDir, env.markerFile⟩).1).2.2
                ++ ((installBlock cmd env r).2
                  ++ (if !(cmd.output == CommandOutput.Quiet)
                      && !(cmd.mode == SyncMode.PythonOnly) then
                    [Event.doneMsg]
                  else
                    [])))) := by
          simp [sync, syncRest, hb, hcls, hf, hcp, hib, List.append_assoc]
        rw [hev, hbe]
        rcases hq : (!(cmd.output == CommandOutput.Quiet)
            && !(cmd.mode == SyncMode.PythonOnly)) with _ | _ <;>
          simp [hq, List.countP_append, List.countP_cons, hz1, hz2, hz3, hdn]

/-- The body of the TempDir block never emits the acquire or release
effects themselves. -/
theorem mem_innerBlock_not_tempdir {cmd : SyncOptions} {env : Env} {e : Event}
    (h : e ∈ (innerBlock cmd env).2) :
    (e == Event.tempDirCreate) = false ∧ (e == Event.tempDirRelease) = false := by
  unfold innerBlock at h
  split at h
  · rcases hl : lockCalls env with ⟨res, evs⟩
    rw [hl] at h
    rcases res with err | u
    · simp only [List.mem_cons] at h
      rcases h with rfl | h
      · exact ⟨rfl, rfl⟩
      · have hk := mem_lockCalls (show e ∈ (lockCalls env).2 by rw [hl]; exact h)
        cases e <;> simp_all [Event.isLockCall]
    · simp only [List.mem_cons, List.mem_append] at h
      rcases h with rfl | h | h
      · exact ⟨rfl, rfl⟩
      · have hk := mem_lockCalls (show e ∈ (lockCalls env).2 by rw [hl]; exact h)
        cases e <;> simp_all [Event.isLockCall]
      · rcases mem_installCall h with rfl | ⟨s, rfl⟩ <;> exact ⟨rfl, rfl⟩
  · simp only [List.mem_singleton] at h
    subst h
    exact ⟨rfl, rfl⟩

/-- The TempDir block balances its acquire and release effects on every exit
path, successful or not. -/
theorem installBlock_tempdir_balanced (cmd : SyncOptions) (env : Env) (r : Bool) :
    (installBlock cmd env r).2.countP (fun e => e == Event.tempDirCreate)
      = (installBlock cmd env r).2.countP (fun e => e == Event.tempDirRelease) := by
  unfold installBlock
  split
  · split
    · have h1 : (innerBlock cmd env).2.countP (fun e => e == Event.tempDirCreate) = 0 :=
        countP_zero_of_mem (fun e he => (mem_innerBlock_not_tempdir he).1)
      have h2 : (innerBlock cmd env).2.countP (fun e => e == Event.tempDirRelease) = 0 :=
        countP_zero_of_mem (fun e he => (mem_innerBlock_not_tempdir he).2)
      simp [List.countP_cons, List.countP_append, h1, h2]
    · rfl
  · rfl

/-- The block's acquire effect occurs only when the block is entered, that
is, when recreation was decided or the mode is not PythonOnly. -/
theorem installBlock_entered {cmd : SyncOptions} {env : Env} {r : Bool}
    (h : Event.tempDirCreate ∈ (installBlock cmd env r).2) :
    (r || cmd.mode != SyncMode.PythonOnly) = true := by
  unfold installBlock at h
  split at h
  · assumption
  · simp at h

/-- In LockOnly mode the installer is never invoked. -/
theorem installCall_lockonly {cmd : SyncOptions} (env : Env)
    (h : cmd.mode = SyncMode.LockOnly) : installCall cmd env = (Except.ok (), []) := by
  simp [installCall, h]

/-- Every pip-sync invocation of the block comes from the install call. -/
theorem innerBlock_pipSync_mem {cmd : SyncOptions} {env : Env} {s : LockSource}
    (h : Event.pipSync s ∈ (innerBlock cmd env).2) :
    Event.pipSync s ∈ (installCall cmd env).2 := by
  unfold innerBlock at h
  split at h
  · rcases hl : lockCalls env with ⟨res, evs⟩
    rw [hl] at h
    rcases res with err | u
    · simp only [List.mem_cons] at h
      rcases h with heq | h
      · exact absurd heq (by simp)
      · have hk := mem_lockCalls
          (show Event.pipSync s ∈ (lockCalls env).2 by rw [hl]; exact h)
        simp [Event.isLockCall] at hk
    · simp only [List.mem_cons, List.mem_append] at h
      rcases h with heq | h | h
      · exact absurd heq (by simp)
      · have hk := mem_lockCalls
          (show Event.pipSync s ∈ (lockCalls env).2 by rw [hl]; exact h)
        simp [Event.isLockCall] at hk
      · exact h
  · simp at h

/-- Every pip-sync invocation of a sync run's block comes from the install
call. -/
theorem installBlock_pipSync_mem {cmd : SyncOptions} {env : Env} {r : Bool}
    {s : LockSource} (h : Event.pipSync s ∈ (installBlock cmd env r).2) :
    Event.pipSync s ∈ (installCall cmd env).2 := by
  unfold installBlock at h
  split at h
  · split at h
    · simp only [List.mem_cons, List.mem_append, List.mem_singleton] at h
      rcases h with (heq | h) | heq | h
      · exact absurd heq (by simp)
      · exact innerBlock_pipSync_mem h
      · exact absurd heq (by simp)
      · simp at h
    · simp at h
  · simp at h

/-- The install call hands pip-sync the dev lock artifact exactly when
`dev` is set and the dev lockfile exists, else the production artifact. -/
theorem installCall_pipSync {cmd : SyncOptions} {env : Env} {s : LockSource}
    (h : Event.pipSync s ∈ (installCall cmd env).2) :
    s = (if cmd.dev && env.devLockfileIsFile then LockSource.devLock
      else LockSource.prodLock) := by
  unfold installCall at h
  repeat' split at h
  all_goals simp_all
  all_goals split
  all_goals simp_all

/-- The install call passes at most one lock artifact to pip-sync. -/
theorem installCall_pipSync_count (cmd : SyncOptions) (env : Env) :
    (installCall cmd env).2.countP Event.isPipSync ≤ 1 := by
  unfold installCall
  repeat' split
  all_goals simp [Event.isPipSync, List.countP_cons, List.countP_append]

/-- Lock-driver calls are not pip-sync invocations. -/
theorem lockCalls_pipSync_count (env : Env) :
    (lockCalls env).2.countP Event.isPipSync = 0 :=
  countP_zero_of_mem (fun e he => by
    have hk := mem_lockCalls he
    cases e <;> simp_all [Event.isLockCall, Event.isPipSync])

/-- The body of the TempDir block invokes pip-sync at most once. -/
theorem innerBlock_pipSync_count (cmd : SyncOptions) (env : Env) :
    (innerBlock cmd env).2.countP Event.isPipSync ≤ 1 := by
  unfold innerBlock
  split
  · rcases hl : lockCalls env with ⟨res, evs⟩
    have hz : evs.countP Event.isPipSync = 0 := by
      have hc := lockCalls_pipSync_count env
      rw [hl] at hc
      exact hc
    rcases res with err | u
    · simp [List.countP_cons, hz, Event.isPipSync]
    · simp [List.countP_cons, List.countP_append, hz, Event.isPipSync]
      exact installCall_pipSync_count cmd env
  · simp [List.countP_cons, Event.isPipSync]

/-- The TempDir block invokes pip-sync at most once. -/
theorem installBlock_pipSync_count (cmd : SyncOptions) (env : Env) (r : Bool) :
    (installBlock cmd env r).2.countP Event.isPipSync ≤ 1 := by
  unfold installBlock
  split
  · split
    · simp only [List.countP_cons, List.countP_append]
      have hc := innerBlock_pipSync_count cmd env
      simp [Event.isPipSync]
      omega
    · simp
  · simp

/-- In LockOnly mode the TempDir block never invokes pip-sync. -/
theorem installBlock_lockonly_no_pipSync (cmd : SyncOptions) (env : Env) (r : Bool)
    (h : cmd.mode = SyncMode.LockOnly) :
    (installBlock cmd env r).2.countP Event.isPipSync = 0 := by
  refine countP_zero_of_mem ?_
  intro e he
  cases e <;> try rfl
  case pipSync s =>
    have hm := installBlock_pipSync_mem he
    rw [installCall_lockonly env h] at hm
    simp at hm

/-- A successful pair of lock calls is exactly one production call followed
by one dev call, through either entry point. -/
theorem lockCalls_ok {env : Env} (h : (lockCalls env).1 = Except.ok ()) :
    (lockCalls env).2
        = [Event.lockWorkspace LockMode.Production, Event.lockWorkspace LockMode.Dev]
      ∨ (lockCalls env).2
        = [Event.lockSingle LockMode.Production, Event.lockSingle LockMode.Dev] := by
  unfold lockCalls at h ⊢
  repeat' split
  all_goals simp_all

/-- The install call makes no lock-driver calls. -/
theorem installCall_lock_count (cmd : SyncOptions) (env : Env) (m : LockMode) :
    (installCall cmd env).2.countP (fun e => e.lockCallMode == some m) = 0 :=
  countP_zero_of_mem (fun e he => by
    rcases mem_installCall he with rfl | ⟨s, rfl⟩ <;> rfl)

/-- A successful body of the TempDir block went through the symlink, a
successful pair of lock calls, and the install call, in that order. -/
theorem innerBlock_ok_shape {cmd : SyncOptions} {env : Env}
    (h : (innerBlock cmd env).1 = Except.ok ()) :
    env.symlinkOk = true ∧ (lockCalls env).1 = Except.ok () ∧
      (innerBlock cmd env).2
        = Event.symlinkPip :: ((lockCalls env).2 ++ (installCall cmd env).2) := by
  have hs : env.symlinkOk = true := by
    by_contra hns
    simp only [Bool.not_eq_true] at hns
    unfold innerBlock at h
    rw [hns] at h
    simp at h
  rcases hl : lockCalls env with ⟨res, evs⟩
  rcases res with err | u
  · exfalso
    unfold innerBlock at h
    rw [hs, hl] at h
    simp at h
  · rcases u
    refine ⟨hs, by simp [hl], ?_⟩
    unfold innerBlock
    rw [hs, hl]
    simp

/-- A successful body of the TempDir block makes exactly one production and
one dev lock call. -/
theorem innerBlock_ok_lock_counts {cmd : SyncOptions} {env : Env}
    (h : (innerBlock cmd env).1 = Except.ok ()) :
    (innerBlock cmd env).2.countP
        (fun e => e.lockCallMode == some LockMode.Production) = 1 ∧
      (innerBlock cmd env).2.countP
        (fun e => e.lockCallMode == some LockMode.Dev) = 1 := by
  obtain ⟨hs, hlok, hev⟩ := innerBlock_ok_shape h
  have hic1 := installCall_lock_count cmd env LockMode.Production
  have hic2 := installCall_lock_count cmd env LockMode.Dev
  rw [hev]
  rcases lockCalls_ok hlok with hevs | hevs <;> rw [hevs] <;>
    simp only [List.countP_cons, List.countP_append, List.countP_nil, hic1, hic2] <;>
    decide

/-- An entered TempDir block wraps its body's events between the acquire and
release effects and propagates its body's result. -/
theorem installBlock_entered_shape {cmd : SyncOptions} {env : Env} {r : Bool}
    (hentered : (r || cmd.mode != SyncMode.PythonOnly) = true)
    (ht : env.tempDirOk = true) :
    (installBlock cmd env r).1 = (innerBlock cmd env).1 ∧
      (installBlock cmd env r).2
        = Event.tempDirCreate :: ((innerBlock cmd env).2 ++ [Event.tempDirRelease]) := by
  unfold installBlock
  rw [if_pos hentered, ht]
  simp

/-- A successful entered TempDir block acquired its temporary directory. -/
theorem installBlock_ok_tempdir {cmd : SyncOptions} {env : Env} {r : Bool}
    (hentered : (r || cmd.mode != SyncMode.PythonOnly) = true)
    (h : (installBlock cmd env r).1 = Except.ok ()) : env.tempDirOk = true := by
  by_contra hnt
  simp only [Bool.not_eq_true] at hnt
  unfold installBlock at h
  rw [if_pos hentered, hnt] at h
  simp at h

/-- A successful entered TempDir block makes exactly one production and one
dev lock call. -/
theorem installBlock_ok_lock_counts {cmd : SyncOptions} {env : Env} {r : Bool}
    (hentered : (r || cmd.mode != SyncMode.PythonOnly) = true)
    (h : (installBlock cmd env r).1 = Except.ok ()) :
    (installBlock cmd env r).2.countP
        (fun e => e.lockCallMode == some LockMode.Production) = 1 ∧
      (installBlock cmd env r).2.countP
        (fun e => e.lockCallMode == some LockMode.Dev) = 1 := by
  have ht := installBlock_ok_tempdir hentered h
  obtain ⟨hres, hev⟩ := installBlock_entered_shape hentered ht
  rw [hres] at h
  obtain ⟨h1, h2⟩ := innerBlock_ok_lock_counts h
  rw [hev]
  simp only [List.countP_cons, List.countP_append, List.countP_nil, h1, h2]
  decide

/-- A sync run that ends in success passed bootstrap, classification, the
toolchain fetch and the whole TempDir block. -/
theorem sync_ok_inversion {cmd : SyncOptions} {env : Env}
    (h : (sync cmd env).result = Except.ok ()) :
    env.bootstrapOk = true ∧
      ∃ r evs, classify cmd env = Except.ok (r, evs) ∧
        recreateDecision cmd env = some r ∧
        ∃ pv, env.fetchResult = some pv ∧ (installBlock cmd env r).1 = Except.ok ()
          ∧ blockEvents cmd env = (installBlock cmd env r).2 := by
  rcases hb : env.bootstrapOk with _ | _
  · simp [sync, hb] at h
  refine ⟨rfl, ?_⟩
  rcases hcls : classify cmd env with err | ⟨r, evs⟩
  · simp [sync, hb, hcls] at h
  refine ⟨r, evs, rfl, by simp [recreateDecision, hcls], ?_⟩
  rcases hf : env.fetchResult with _ | pv
  · simp [sync, syncRest, hb, hcls, hf] at h
  refine ⟨pv, rfl, ?_⟩
  rcases hcp : (createPhase cmd env pv
      (removePhase r env ⟨env.venvIsDir, env.markerFile⟩).1).1 with e1 | u1
  · simp [sync, syncRest, hb, hcls, hf, hcp] at h
  rcases hib : (installBlock cmd env r).1 with e2 | u2
  · simp [sync, syncRest, hb, hcls, hf, hcp, hib] at h
  · rcases u2
    exact ⟨rfl, by simp [blockEvents, hb, hcls, hf, hcp]⟩

/-- Whatever happens after the toolchain fetch, the final directory state is
the one the reuse-or-create phase produced. -/
theorem sync_final_eq {cmd : SyncOptions} {env : Env} {r : Bool} {evs : List Event}
    {pv : PythonVersion} (hb : env.bootstrapOk = true)
    (hcls : classify cmd env = Except.ok (r, evs))
    (hf : env.fetchResult = some pv) :
    (sync cmd env).final
      = (createPhase cmd env pv
          (removePhase r env ⟨env.venvIsDir, env.markerFile⟩).1).2.1 := by
  simp only [sync, syncRest, hb, hcls, hf, if_true]
  rcases hcp : (createPhase cmd env pv
      (removePhase r env ⟨env.venvIsDir, env.markerFile⟩).1).1 with e1 | u1
  · simp [hcp]
  · rcases hib : (installBlock cmd env r).1 with e2 | u2 <;> simp [hcp, hib]

/-- When sync fails before the toolchain fetch, the directory state is
untouched. -/
theorem sync_final_early (cmd : SyncOptions) (env : Env) :
    (env.bootstrapOk = false →
      (sync cmd env).final = ⟨env.venvIsDir, env.markerFile⟩) ∧
    (∀ err, classify cmd env = Except.error err →
      (sync cmd env).final = ⟨env.venvIsDir, env.markerFile⟩) ∧
    (∀ r evs, env.bootstrapOk = true → classify cmd env = Except.ok (r, evs) →
      env.fetchResult = none →
      (sync cmd env).final = ⟨env.venvIsDir, env.markerFile⟩) := by
  refine ⟨fun hb => ?_, fun err hcls => ?_, fun r evs hb hcls hf => ?_⟩
  · simp [sync, hb]
  · cases hb : env.bootstrapOk
    · simp [sync, hb]
    · simp [sync, hb, hcls]
  · simp [sync, syncRest, hb, hcls, hf]

/-- The block-events list is empty or is exactly the TempDir block of the
decided recreate flag. -/
theorem blockEvents_cases (cmd : SyncOptions) (env : Env) :
    blockEvents cmd env = [] ∨
      ∃ r, recreateDecision cmd env = some r ∧
        blockEvents cmd env = (installBlock cmd env r).2 := by
  rcases hb : env.bootstrapOk with _ | _
  · left
    simp [blockEvents, hb]
  rcases hcls : classify cmd env with err | ⟨r, evs⟩
  · left
    simp [blockEvents, hb, hcls]
  rcases hf : env.fetchResult with _ | pv
  · left
    simp [blockEvents, hb, hcls, hf]
  rcases hcp : (createPhase cmd env pv
      (removePhase r env ⟨env.venvIsDir, env.markerFile⟩).1).1 with e1 | u1
  · left
    simp [blockEvents, hb, hcls, hf, hcp]
  · right
    exact ⟨r, by simp [recreateDecision, hcls], by simp [blockEvents, hb, hcls, hf, hcp]⟩

/-- A quiet-suppressible message appears in the trace exactly when the
verbosity is not Quiet. -/
theorem mem_warnEvents_iff (o : CommandOutput) (w : Event) :
    w ∈ warnEvents o w ↔ o ≠ CommandOutput.Quiet := by
  unfold warnEvents
  split <;> simp_all

/-- A block-only event of a sync trace comes from the TempDir block of the
decided recreate flag. -/
theorem mem_sync_blockEvents {cmd : SyncOptions} {env : Env} {e : Event}
    (he : e ∈ (sync cmd env).events) (hbe : e.isBlockEvent = true) :
    ∃ r, recreateDecision cmd env = some r ∧ e ∈ (installBlock cmd env r).2 := by
  rcases hb : env.bootstrapOk with _ | _
  · rw [(sync_events_early cmd env).1 hb] at he
    simp at he
  rcases hcls : classify cmd env with err | ⟨r, evs⟩
  · rw [(sync_events_early cmd env).2.1 err hcls] at he
    simp at he
  rcases hf : env.fetchResult with _ | pv
  · rw [(sync_events_early cmd env).2.2 r evs hb hcls hf] at he
    rcases classify_ok_mem hcls he with rfl | rfl <;> simp [Event.isBlockEvent] at hbe
  refine ⟨r, by simp [recreateDecision, hcls], ?_⟩
  obtain ⟨tail, hev, htail⟩ := sync_events_shape hb hcls hf
  rw [hev] at he
  simp only [List.mem_append] at he
  rcases he with he | he | he | he
  · rcases classify_ok_mem hcls he with rfl | rfl <;> simp [Event.isBlockEvent] at hbe
  · rw [mem_removePhase he] at hbe
    simp [Event.isBlockEvent] at hbe
  · have hc := mem_createPhase he
    rcases hc with rfl | rfl | rfl | rfl <;> simp [Event.isBlockEvent] at hbe
  · rcases htail with rfl | rfl | rfl
    · simp at he
    · exact he
    · simp only [List.mem_append, List.mem_singleton] at he
      rcases he with he | rfl
      · exact he
      · simp [Event.isBlockEvent] at hbe

/-- A list all of whose members falsify `p` filters to the empty list. -/
theorem filter_nil_of_mem {l : List Event} {p : Event → Bool}
    (h : ∀ e ∈ l, p e = false) : l.filter p = [] := by
  induction l with
  | nil => rfl
  | cons a t ih =>
    have ha := h a (by simp)
    rw [List.filter_cons]
    simp only [ha, Bool.false_eq_true, if_false]
    exact ih (fun e he => h e (by simp [he]))

/-- Block-only events are not directory mutations. -/
theorem isMutation_block_false {e : Event} (h : e.isBlockEvent = true) :
    isMutation e = false := by
  cases e <;> simp_all [Event.isBlockEvent, isMutation, Event.isCreateVenv,
    Event.isWriteMarker]

/-- When the directory survives into the reuse branch, the removal phase did
not change it. -/
theorem removePhase_keep {r : Bool} {env : Env} {st : FsState}
    (h : ((removePhase r env st).1).venvIsDir = true) :
    (removePhase r env st).1 = st := by
  unfold removePhase at h ⊢
  repeat' split at h
  all_goals simp_all

/-- Reusing the directory leaves the state of the environment unchanged. -/
theorem createPhase_reuse_final {cmd : SyncOptions} {env : Env} {pv : PythonVersion}
    {st : FsState} (h : st.venvIsDir = true) :
    (createPhase cmd env pv st).2.1 = st := by
  simp [createPhase, h]

/-- When the directory is absent the create phase invokes the environment
creator for the fetched version. -/
theorem createPhase_creates {cmd : SyncOptions} {env : Env} {pv : PythonVersion}
    {st : FsState} (h : st.venvIsDir = false) :
    Event.createVenv pv ∈ (createPhase cmd env pv st).2.2 := by
  unfold createPhase
  rw [h]
  repeat' split
  all_goals simp_all

/-- A marker write in the create phase records the fetched version, and is
always preceded by the environment creation in the same phase. -/
theorem createPhase_write_implies_create {cmd : SyncOptions} {env : Env}
    {pv : PythonVersion} {st : FsState} {v : PythonVersion}
    (h : Event.writeMarker v ∈ (createPhase cmd env pv st).2.2) :
    v = pv ∧ Event.createVenv pv ∈ (createPhase cmd env pv st).2.2 := by
  unfold createPhase at h ⊢
  repeat' split at h
  all_goals simp_all

/-- C2: when the environment directory is present, no marker file exists
inside it, and force is not set, sync fails with the not-managed policy
error, its trace is empty (no removal, creation, lock call or install), and
the directory state is unchanged. -/
theorem sync_unmanaged_without_force_fails_policy (cmd : SyncOptions) (env : Env)
    (hboot : env.bootstrapOk = true) (hdir : env.venvIsDir = true)
    (hmarker : env.markerFile = none) (hforce : cmd.force = false) :
    sync cmd env
      = ⟨Except.error SyncError.notManaged, [], ⟨env.venvIsDir, env.markerFile⟩⟩ := by
  have hcls : classify cmd env = Except.error SyncError.notManaged := by
    simp [classify, hdir, hmarker, hforce]
  simp [sync, hboot, hcls]

/-- C2 witness: a concrete unmanaged directory rejected by a regular sync. -/
theorem sync_unmanaged_without_force_fails_policy_witness :
    sync (SyncOptions.mk CommandOutput.Normal false SyncMode.Regular false) envUnmanaged
      = ⟨Except.error SyncError.notManaged, [], ⟨true, none⟩⟩ :=
  sync_unmanaged_without_force_fails_policy
    (SyncOptions.mk CommandOutput.Normal false SyncMode.Regular false)
    envUnmanaged rfl rfl rfl rfl

/-- C4: a present directory whose marker file reads but does not parse makes
sync fail hard with the malformed-marker configuration error: the trace is
empty and the state unchanged, so the case is treated neither as unmanaged
(no policy error, no forced recreation) nor as drift (no recreation). -/
theorem sync_malformed_marker_hard_error (cmd : SyncOptions) (env : Env)
    (hboot : env.bootstrapOk = true) (hdir : env.venvIsDir = true)
    (hread : env.markerReadOk = true)
    (hmarker : env.markerFile = some MarkerFile.malformed) :
    sync cmd env
      = ⟨Except.error SyncError.malformedMarker, [], ⟨env.venvIsDir, env.markerFile⟩⟩ := by
  have hcls : classify cmd env = Except.error SyncError.malformedMarker := by
    simp [classify, hdir, hread, hmarker]
  simp [sync, hboot, hcls]

/-- C4 witness: a concrete malformed marker file failing a regular sync. -/
theorem sync_malformed_marker_hard_error_witness :
    sync (SyncOptions.mk CommandOutput.Normal false SyncMode.Regular false) envMalformed
      = ⟨Except.error SyncError.malformedMarker, [],
          ⟨true, some MarkerFile.malformed⟩⟩ :=
  sync_malformed_marker_hard_error
    (SyncOptions.mk CommandOutput.Normal false SyncMode.Regular false)
    envMalformed rfl rfl rfl rfl

/-- C9: force=true does not bypass the malformed-marker failure; with the
marker file present but unparseable, sync fails with the malformed-marker
error even under force. -/
theorem sync_force_does_not_bypass_malformed_marker (cmd : SyncOptions) (env : Env)
    (hboot : env.bootstrapOk = true) (hdir : env.venvIsDir = true)
    (hread : env.markerReadOk = true)
    (hmarker : env.markerFile = some MarkerFile.malformed)
    (hforce : cmd.force = true) :
    (sync cmd env).result = Except.error SyncError.malformedMarker := by
  have hcls : classify cmd env = Except.error SyncError.malformedMarker := by
    simp [classify, hdir, hread, hmarker]
  simp [sync, hboot, hcls]

/-- C9 witness: a concrete forced sync still rejecting a malformed marker. -/
theorem sync_force_does_not_bypass_malformed_marker_witness :
    (sync (SyncOptions.mk CommandOutput.Normal false SyncMode.Regular true)
        envMalformed).result = Except.error SyncError.malformedMarker :=
  sync_force_does_not_bypass_malformed_marker
    (SyncOptions.mk CommandOutput.Normal false SyncMode.Regular true)
    envMalformed rfl rfl rfl rfl rfl

/-- C1 counterexample: a PythonOnly sync over a drifted environment calls
the lock driver twice and invokes pip-sync, refuting the claim that
PythonOnly never calls them even when recreation occurs. -/
theorem sync_python_only_drift_counterexample :
    (SyncOptions.mk CommandOutput.Quiet false SyncMode.PythonOnly false).mode
        = SyncMode.PythonOnly ∧
      (sync (SyncOptions.mk CommandOutput.Quiet false SyncMode.PythonOnly false)
          envDrifted).events.countP Event.isLockCall = 2 ∧
      (sync (SyncOptions.mk CommandOutput.Quiet false SyncMode.PythonOnly false)
          envDrifted).events.countP Event.isPipSync = 1 := by
  decide

/-- C1 (amended): a PythonOnly sync in which no recreation was decided never
calls the lock driver and never invokes pip-sync; when recreation is
decided, even PythonOnly runs the lock-and-install block. -/
theorem sync_python_only_no_recreate_skips_lock_install (cmd : SyncOptions)
    (env : Env) (hmode : cmd.mode = SyncMode.PythonOnly)
    (hrec : recreateDecision cmd env = some false) :
    (sync cmd env).events.countP Event.isLockCall = 0 ∧
      (sync cmd env).events.countP Event.isPipSync = 0 := by
  have hblock : installBlock cmd env false = (Except.ok (), []) := by
    simp [installBlock, hmode]
  have hbe : blockEvents cmd env = [] ∨ blockEvents cmd env = [] := by
    rcases blockEvents_cases cmd env with hc | ⟨r, hr, hc⟩
    · exact Or.inl hc
    · rw [hrec] at hr
      have hrf : r = false := (Option.some.inj hr).symm
      subst hrf
      rw [hblock] at hc
      exact Or.inr hc
  have hbe2 : blockEvents cmd env = [] := by rcases hbe with hc | hc <;> exact hc
  constructor
  · rw [sync_countP cmd env Event.isLockCall rfl rfl rfl rfl (fun v => rfl)
      (fun v => rfl) (fun v => rfl) rfl, hbe2]
    rfl
  · rw [sync_countP cmd env Event.isPipSync rfl rfl rfl rfl (fun v => rfl)
      (fun v => rfl) (fun v => rfl) rfl, hbe2]
    rfl

/-- C1 witness: a PythonOnly sync with no directory yet (so no recreation)
performing neither lock calls nor installs. -/
theorem sync_python_only_no_recreate_skips_lock_install_witness :
    (sync (SyncOptions.mk CommandOutput.Normal false SyncMode.PythonOnly false)
        baseEnv).events.countP Event.isLockCall = 0 ∧
      (sync (SyncOptions.mk CommandOutput.Normal false SyncMode.PythonOnly false)
          baseEnv).events.countP Event.isPipSync = 0 :=
  sync_python_only_no_recreate_skips_lock_install
    (SyncOptions.mk CommandOutput.Normal false SyncMode.PythonOnly false)
    baseEnv rfl (by decide)

/-- C6: a LockOnly sync never invokes pip-sync, and when it succeeds it has
called the lock driver exactly twice — once in production mode and once in
dev mode. -/
theorem sync_lock_only_two_lock_calls_no_install (cmd : SyncOptions) (env : Env)
    (hmode : cmd.mode = SyncMode.LockOnly) :
    (sync cmd env).events.countP Event.isPipSync = 0 ∧
      ((sync cmd env).result = Except.ok () →
        (sync cmd env).events.countP
            (fun e => e.lockCallMode == some LockMode.Production) = 1 ∧
          (sync cmd env).events.countP
            (fun e => e.lockCallMode == some LockMode.Dev) = 1) := by
  constructor
  · rw [sync_countP cmd env Event.isPipSync rfl rfl rfl rfl (fun v => rfl)
      (fun v => rfl) (fun v => rfl) rfl]
    rcases blockEvents_cases cmd env with hc | ⟨r, hr, hc⟩
    · rw [hc]
      rfl
    · rw [hc]
      exact installBlock_lockonly_no_pipSync cmd env r hmode
  · intro hok
    obtain ⟨hb, r, evs, hcls, hrd, pv, hf, hib, hbeq⟩ := sync_ok_inversion hok
    have hentered : (r || cmd.mode != SyncMode.PythonOnly) = true := by
      rw [hmode]
      simp
    obtain ⟨h1, h2⟩ := installBlock_ok_lock_counts hentered hib
    constructor
    · rw [sync_countP cmd env (fun e => e.lockCallMode == some LockMode.Production)
        rfl rfl rfl rfl (fun v => rfl) (fun v => rfl) (fun v => rfl) rfl, hbeq]
      exact h1
    · rw [sync_countP cmd env (fun e => e.lockCallMode == some LockMode.Dev)
        rfl rfl rfl rfl (fun v => rfl) (fun v => rfl) (fun v => rfl) rfl, hbeq]
      exact h2

/-- C6 witness: a concrete successful LockOnly sync with its two lock calls
and no install. -/
theorem sync_lock_only_two_lock_calls_no_install_witness :
    (sync (SyncOptions.mk CommandOutput.Normal false SyncMode.LockOnly false)
        baseEnv).events.countP Event.isPipSync = 0 ∧
      (sync (SyncOptions.mk CommandOutput.Normal false SyncMode.LockOnly false)
          baseEnv).events.countP
          (fun e => e.lockCallMode == some LockMode.Production) = 1 ∧
      (sync (SyncOptions.mk CommandOutput.Normal false SyncMode.LockOnly false)
          baseEnv).events.countP
          (fun e => e.lockCallMode == some LockMode.Dev) = 1 :=
  ⟨(sync_lock_only_two_lock_calls_no_install
      (SyncOptions.mk CommandOutput.Normal false SyncMode.LockOnly false)
      baseEnv rfl).1,
    (sync_lock_only_two_lock_calls_no_install
      (SyncOptions.mk CommandOutput.Normal false SyncMode.LockOnly false)
      baseEnv rfl).2 rfl⟩

/-- C7: whenever a sync run passes a lock artifact to pip-sync, it passes
exactly one, and it is the dev artifact when dev=true and the dev lockfile
exists as a file, otherwise the production artifact. -/
theorem sync_install_source_selection (cmd : SyncOptions) (env : Env)
    (s : LockSource) (hs : Event.pipSync s ∈ (sync cmd env).events) :
    s = (if cmd.dev && env.devLockfileIsFile then LockSource.devLock
        else LockSource.prodLock) ∧
      (sync cmd env).events.countP Event.isPipSync = 1 := by
  obtain ⟨r, hrd, hm⟩ := mem_sync_blockEvents hs rfl
  refine ⟨installCall_pipSync (installBlock_pipSync_mem hm), ?_⟩
  have hcnt := sync_countP cmd env Event.isPipSync rfl rfl rfl rfl (fun v => rfl)
    (fun v => rfl) (fun v => rfl) rfl
  have hpos : 0 < (sync cmd env).events.countP Event.isPipSync :=
    List.countP_pos_iff.mpr ⟨Event.pipSync s, hs, rfl⟩
  rcases blockEvents_cases cmd env with hc | ⟨r2, hr2, hc⟩
  · rw [hcnt, hc] at hpos
    simp at hpos
  · have hle := installBlock_pipSync_count cmd env r2
    rw [hcnt, hc] at hpos ⊢
    omega

/-- C7 witness: a concrete regular sync passing exactly the production lock
artifact to pip-sync. -/
theorem sync_install_source_selection_witness :
    LockSource.prodLock
        = (if (SyncOptions.mk CommandOutput.Normal false SyncMode.Regular
            false).dev && baseEnv.devLockfileIsFile then LockSource.devLock
          else LockSource.prodLock) ∧
      (sync (SyncOptions.mk CommandOutput.Normal false SyncMode.Regular false)
          baseEnv).events.countP Event.isPipSync = 1 :=
  sync_install_source_selection
    (SyncOptions.mk CommandOutput.Normal false SyncMode.Regular false)
    baseEnv LockSource.prodLock (by decide)

/-- C8 counterexample: a LockOnly sync creates the ephemeral isolation
directory although no installation runs in it, refuting the claim that the
directory is not created when no installation will run. -/
theorem sync_lock_only_tempdir_counterexample :
    Event.tempDirCreate ∈
        (sync (SyncOptions.mk CommandOutput.Normal false SyncMode.LockOnly false)
          baseEnv).events ∧
      (sync (SyncOptions.mk CommandOutput.Normal false SyncMode.LockOnly false)
          baseEnv).events.countP Event.isPipSync = 0 := by
  decide

/-- C8 (amended): the ephemeral isolation directory is created only when the
lock-and-install block runs — recreation decided or mode other than
PythonOnly, which includes LockOnly runs without any install — and every
sync trace, on success or failure, balances its creation with its release. -/
theorem sync_tempdir_balanced_and_scoped (cmd : SyncOptions) (env : Env) :
    (sync cmd env).events.countP (fun e => e == Event.tempDirCreate)
        = (sync cmd env).events.countP (fun e => e == Event.tempDirRelease) ∧
      (Event.tempDirCreate ∈ (sync cmd env).events →
        cmd.mode ≠ SyncMode.PythonOnly ∨ recreateDecision cmd env = some true) := by
  constructor
  · rw [sync_countP cmd env (fun e => e == Event.tempDirCreate) rfl rfl rfl rfl
        (fun v => rfl) (fun v => rfl) (fun v => rfl) rfl,
      sync_countP cmd env (fun e => e == Event.tempDirRelease) rfl rfl rfl rfl
        (fun v => rfl) (fun v => rfl) (fun v => rfl) rfl]
    rcases blockEvents_cases cmd env with hc | ⟨r, hr, hc⟩
    · rw [hc]
      rfl
    · rw [hc]
      exact installBlock_tempdir_balanced cmd env r
  · intro hm
    obtain ⟨r, hrd, hbm⟩ := mem_sync_blockEvents hm rfl
    have hcond := installBlock_entered hbm
    rcases r with _ | _
    · left
      intro hmode
      rw [hmode] at hcond
      simp at hcond
    · right
      exact hrd

/-- C8 witness: a PythonOnly sync whose trace contains the acquire effect
must have had recreation decided. -/
theorem sync_tempdir_balanced_and_scoped_witness :
    (SyncOptions.mk CommandOutput.Quiet false SyncMode.PythonOnly false).mode
        ≠ SyncMode.PythonOnly ∨
      recreateDecision
          (SyncOptions.mk CommandOutput.Quiet false SyncMode.PythonOnly false)
          envDrifted = some true :=
  (sync_tempdir_balanced_and_scoped
      (SyncOptions.mk CommandOutput.Quiet false SyncMode.PythonOnly false)
      envDrifted).2 (by decide)

/-- C3 counterexample: with a valid marker, mode=Full and a failing
recursive removal, sync swallows the filesystem error (the removal is
attempted but its failure is not surfaced), reuses the surviving directory
without creating a fresh one, and still reports success. -/
theorem sync_remove_failure_swallowed_counterexample :
    (sync (SyncOptions.mk CommandOutput.Normal false SyncMode.Full false)
        envRemoveFail).result = Except.ok () ∧
      Event.removeDirAll ∈
        (sync (SyncOptions.mk CommandOutput.Normal false SyncMode.Full false)
          envRemoveFail).events ∧
      (sync (SyncOptions.mk CommandOutput.Normal false SyncMode.Full false)
          envRemoveFail).events.countP Event.isCreateVenv = 0 ∧
      (sync (SyncOptions.mk CommandOutput.Normal false SyncMode.Full false)
          envRemoveFail).final.venvIsDir = true :=
  ⟨rfl, by decide, by decide, rfl⟩

/-- C3 (amended): when recreation is decided, sync attempts the recursive
removal (a removal failure is swallowed rather than surfaced, so the old
directory would be reused); when the directory is actually gone afterwards
and creation and marker write succeed, the run's directory mutations are
exactly removal, then creation with the fetched version, then the fresh
descriptor write — the directory is never patched in place. -/
theorem sync_recreate_removes_creates_writes (cmd : SyncOptions) (env : Env)
    (pv : PythonVersion) (hboot : env.bootstrapOk = true)
    (hrec : recreateDecision cmd env = some true)
    (hfetch : env.fetchResult = some pv)
    (hgone : env.venvIsDir = false ∨ env.removeOk = true)
    (hcreate : env.createVenvOk = true) (hwrite : env.markerWriteOk = true) :
    mutationEvents (sync cmd env).events
        = [Event.removeDirAll, Event.createVenv pv, Event.writeMarker pv] ∧
      (sync cmd env).final.markerFile = some (MarkerFile.wellFormed pv) := by
  have hcls : ∃ evs, classify cmd env = Except.ok (true, evs) := by
    unfold recreateDecision at hrec
    rcases hc : classify cmd env with err | ⟨r, evs⟩ <;> rw [hc] at hrec
    · simp at hrec
    · simp only [Option.some.injEq] at hrec
      subst hrec
      exact ⟨evs, rfl⟩
  obtain ⟨evs, hcls⟩ := hcls
  have hrp : ∃ st1 : FsState,
      removePhase true env ⟨env.venvIsDir, env.markerFile⟩
          = (st1, [Event.removeDirAll]) ∧ st1.venvIsDir = false := by
    rcases hgone with hvd | hro
    · exact ⟨⟨env.venvIsDir, env.markerFile⟩, by simp [removePhase, hvd],
        by simp [hvd]⟩
    · rcases hvd : env.venvIsDir with _ | _
      · exact ⟨⟨env.venvIsDir, env.markerFile⟩, by simp [removePhase, hvd],
          by simp [hvd]⟩
      · exact ⟨⟨false, none⟩, by simp [removePhase, hvd, hro], rfl⟩
  obtain ⟨st1, hrp, hst1⟩ := hrp
  have hrp1 : (removePhase true env ⟨env.venvIsDir, env.markerFile⟩).1 = st1 := by
    rw [hrp]
  have hrp2 : (removePhase true env ⟨env.venvIsDir, env.markerFile⟩).2
      = [Event.removeDirAll] := by
    rw [hrp]
  have hcpfin : (createPhase cmd env pv st1).2.1
      = ⟨true, some (MarkerFile.wellFormed pv)⟩ := by
    simp [createPhase, hst1, hcreate, hwrite]
  have hfil : ((createPhase cmd env pv st1).2.2).filter isMutation
      = [Event.createVenv pv, Event.writeMarker pv] := by
    rcases hq : (cmd.output == CommandOutput.Quiet) with _ | _ <;>
      simp [createPhase, hst1, hcreate, hwrite, hq, List.filter_append,
        List.filter_cons, isMutation, Event.isCreateVenv, Event.isWriteMarker]
  obtain ⟨tail, hev, htail⟩ := sync_events_shape hboot hcls hfetch
  have htf : tail.filter isMutation = [] := by
    rcases htail with rfl | rfl | rfl
    · rfl
    · exact filter_nil_of_mem (fun e he => isMutation_block_false (mem_installBlock he))
    · refine filter_nil_of_mem ?_
      intro e he
      rcases List.mem_append.mp he with he | he
      · exact isMutation_block_false (mem_installBlock he)
      · simp only [List.mem_singleton] at he
        subst he
        rfl
  have hef : evs.filter isMutation = [] :=
    filter_nil_of_mem (fun e he => by
      rcases classify_ok_mem hcls he with rfl | rfl <;> rfl)
  constructor
  · unfold mutationEvents
    rw [hev, hrp1, hrp2]
    simp only [List.filter_append, hef, htf, hfil, List.filter_cons]
    simp [isMutation]
  · have hfin := sync_final_eq hboot hcls hfetch
    rw [hrp1, hcpfin] at hfin
    rw [hfin]

/-- C3 witness: a concrete full sync over a managed directory doing exactly
remove-create-write. -/
theorem sync_recreate_removes_creates_writes_witness :
    mutationEvents
        (sync (SyncOptions.mk CommandOutput.Normal false SyncMode.Full false)
          envManaged).events
        = [Event.removeDirAll, Event.createVenv ⟨3, 11, 4⟩,
            Event.writeMarker ⟨3, 11, 4⟩] ∧
      (sync (SyncOptions.mk CommandOutput.Normal false SyncMode.Full false)
          envManaged).final.markerFile
        = some (MarkerFile.wellFormed ⟨3, 11, 4⟩) :=
  sync_recreate_removes_creates_writes
    (SyncOptions.mk CommandOutput.Normal false SyncMode.Full false)
    envManaged ⟨3, 11, 4⟩ rfl (by decide) rfl (Or.inr rfl) rfl rfl

/-- C5 counterexample: a Quiet drifted sync removes and recreates the
directory but emits no version-mismatch warning, refuting the unconditional
warning in the claim. -/
theorem sync_drift_quiet_no_warning_counterexample :
    (sync (SyncOptions.mk CommandOutput.Quiet false SyncMode.Regular false)
        envDrifted).result = Except.ok () ∧
      Event.removeDirAll ∈
        (sync (SyncOptions.mk CommandOutput.Quiet false SyncMode.Regular false)
          envDrifted).events ∧
      Event.createVenv ⟨3, 11, 4⟩ ∈
        (sync (SyncOptions.mk CommandOutput.Quiet false SyncMode.Regular false)
          envDrifted).events ∧
      Event.warnVersionMismatch ∉
        (sync (SyncOptions.mk CommandOutput.Quiet false SyncMode.Regular false)
          envDrifted).events :=
  ⟨rfl, by decide, by decide, by decide⟩

/-- C5 (amended): on drift — marker version differing from the loaded
target — sync removes and recreates the directory, emitting the mismatch
warning exactly when the verbosity is not Quiet, and the descriptor written
into the new directory records exactly the fetched interpreter version used
to create it. -/
theorem sync_drift_recreates_marker_records_created_version
    (cmd : SyncOptions) (env : Env) (w pv : PythonVersion)
    (hboot : env.bootstrapOk = true) (hdir : env.venvIsDir = true)
    (hm : env.markerFile = some (MarkerFile.wellFormed w))
    (hread : env.markerReadOk = true) (hdrift : w ≠ env.loadedPyVer)
    (hfetch : env.fetchResult = some pv) (hremove : env.removeOk = true)
    (hcreate : env.createVenvOk = true) (hwrite : env.markerWriteOk = true) :
    Event.removeDirAll ∈ (sync cmd env).events ∧
      Event.createVenv pv ∈ (sync cmd env).events ∧
      (sync cmd env).final.markerFile = some (MarkerFile.wellFormed pv) ∧
      (Event.warnVersionMismatch ∈ (sync cmd env).events
        ↔ cmd.output ≠ CommandOutput.Quiet) := by
  have hcls : classify cmd env
      = Except.ok (true, warnEvents cmd.output Event.warnVersionMismatch) := by
    simp [classify, hdir, hm, hread, hdrift]
  have hrp : removePhase true env ⟨env.venvIsDir, env.markerFile⟩
      = (⟨false, none⟩, [Event.removeDirAll]) := by
    simp [removePhase, hdir, hremove]
  have hrp1 : (removePhase true env ⟨env.venvIsDir, env.markerFile⟩).1
      = (⟨false, none⟩ : FsState) := by
    rw [hrp]
  have hrp2 : (removePhase true env ⟨env.venvIsDir, env.markerFile⟩).2
      = [Event.removeDirAll] := by
    rw [hrp]
  have hcpfin : (createPhase cmd env pv (⟨false, none⟩ : FsState)).2.1
      = ⟨true, some (MarkerFile.wellFormed pv)⟩ := by
    simp [createPhase, hcreate, hwrite]
  have hcv : Event.createVenv pv
      ∈ (createPhase cmd env pv (⟨false, none⟩ : FsState)).2.2 :=
    createPhase_creates rfl
  obtain ⟨tail, hev, htail⟩ := sync_events_shape hboot hcls hfetch
  rw [hrp1, hrp2] at hev
  have hnottail : Event.warnVersionMismatch ∉ tail := by
    rcases htail with rfl | rfl | rfl
    · simp
    · intro hx
      have hbx := mem_installBlock hx
      simp [Event.isBlockEvent] at hbx
    · intro hx
      rcases List.mem_append.mp hx with hx | hx
      · have hbx := mem_installBlock hx
        simp [Event.isBlockEvent] at hbx
      · simp at hx
  have hnotcp : Event.warnVersionMismatch
      ∉ (createPhase cmd env pv (⟨false, none⟩ : FsState)).2.2 := by
    intro hx
    have hshape := mem_createPhase hx
    simp at hshape
  refine ⟨?_, ?_, ?_, ?_⟩
  · rw [hev]
    simp
  · rw [hev]
    simp only [List.mem_append]
    tauto
  · have hfin := sync_final_eq hboot hcls hfetch
    rw [hrp1, hcpfin] at hfin
    rw [hfin]
  · rw [hev]
    constructor
    · intro hmem
      simp only [List.mem_append] at hmem
      rcases hmem with hx | hx | hx | hx
      · exact (mem_warnEvents_iff cmd.output Event.warnVersionMismatch).mp hx
      · simp at hx
      · exact absurd hx hnotcp
      · exact absurd hx hnottail
    · intro hq
      simp only [List.mem_append]
      exact Or.inl ((mem_warnEvents_iff cmd.output Event.warnVersionMismatch).mpr hq)

/-- C5 witness: a concrete non-quiet drifted sync with warning, recreation,
and a descriptor recording the fetched version. -/
theorem sync_drift_recreates_marker_records_created_version_witness :
    Event.removeDirAll ∈
        (sync (SyncOptions.mk CommandOutput.Normal false SyncMode.Regular false)
          envDrifted).events ∧
      Event.createVenv ⟨3, 11, 4⟩ ∈
        (sync (SyncOptions.mk CommandOutput.Normal false SyncMode.Regular false)
          envDrifted).events ∧
      (sync (SyncOptions.mk CommandOutput.Normal false SyncMode.Regular false)
          envDrifted).final.markerFile
        = some (MarkerFile.wellFormed ⟨3, 11, 4⟩) ∧
      (Event.warnVersionMismatch ∈
          (sync (SyncOptions.mk CommandOutput.Normal false SyncMode.Regular false)
            envDrifted).events
        ↔ (SyncOptions.mk CommandOutput.Normal false SyncMode.Regular
            false).output ≠ CommandOutput.Quiet) :=
  sync_drift_recreates_marker_records_created_version
    (SyncOptions.mk CommandOutput.Normal false SyncMode.Regular false)
    envDrifted ⟨3, 10, 0⟩ ⟨3, 11, 4⟩ rfl rfl rfl rfl (by decide) rfl rfl rfl rfl

/-- C10: sync writes the marker file only in runs that also create the
environment directory (every marker write records the same version as the
creation in the same run), and a run that never invokes the environment
creator leaves the directory and the marker file exactly as it found
them. -/
theorem sync_marker_written_only_with_creation (cmd : SyncOptions) (env : Env) :
    (∀ v, Event.writeMarker v ∈ (sync cmd env).events →
        Event.createVenv v ∈ (sync cmd env).events) ∧
      ((∀ v, Event.createVenv v ∉ (sync cmd env).events) →
        (sync cmd env).final = ⟨env.venvIsDir, env.markerFile⟩) := by
  constructor
  · intro v hwv
    rcases hb : env.bootstrapOk with _ | _
    · rw [(sync_events_early cmd env).1 hb] at hwv
      simp at hwv
    rcases hcls : classify cmd env with err | ⟨r, evs⟩
    · rw [(sync_events_early cmd env).2.1 err hcls] at hwv
      simp at hwv
    rcases hf : env.fetchResult with _ | pv
    · rw [(sync_events_early cmd env).2.2 r evs hb hcls hf] at hwv
      have hshape := classify_ok_mem hcls hwv
      simp at hshape
    obtain ⟨tail, hev, htail⟩ := sync_events_shape hb hcls hf
    rw [hev] at hwv
    simp only [List.mem_append] at hwv
    rcases hwv with hx | hx | hx | hx
    · have hshape := classify_ok_mem hcls hx
      simp at hshape
    · have hshape := mem_removePhase hx
      simp at hshape
    · obtain ⟨rfl, hcv⟩ := createPhase_write_implies_create hx
      rw [hev]
      simp only [List.mem_append]
      tauto
    · rcases htail with rfl | rfl | rfl
      · simp at hx
      · have hbx := mem_installBlock hx
        simp [Event.isBlockEvent] at hbx
      · rcases List.mem_append.mp hx with hx | hx
        · have hbx := mem_installBlock hx
          simp [Event.isBlockEvent] at hbx
        · simp at hx
  · intro hnone
    rcases hb : env.bootstrapOk with _ | _
    · exact (sync_final_early cmd env).1 hb
    rcases hcls : classify cmd env with err | ⟨r, evs⟩
    · exact (sync_final_early cmd env).2.1 err hcls
    rcases hf : env.fetchResult with _ | pv
    · exact (sync_final_early cmd env).2.2 r evs hb hcls hf
    · have hfin := sync_final_eq hb hcls hf
      rcases hvd : ((removePhase r env ⟨env.venvIsDir, env.markerFile⟩).1).venvIsDir
          with _ | _
      · exfalso
        have hcv := @createPhase_creates cmd env pv
          ((removePhase r env ⟨env.venvIsDir, env.markerFile⟩).1) hvd
        obtain ⟨tail, hev, htail⟩ := sync_events_shape hb hcls hf
        refine hnone pv ?_
        rw [hev]
        simp only [List.mem_append]
        tauto
      · rw [hfin, createPhase_reuse_final hvd, removePhase_keep hvd]

/-- C10 witness: a concrete creating run whose marker write is accompanied
by the creation of the same version. -/
theorem sync_marker_written_only_with_creation_witness :
    Event.createVenv ⟨3, 11, 4⟩ ∈
      (sync (SyncOptions.mk CommandOutput.Normal false SyncMode.Regular false)
        baseEnv).events :=
  (sync_marker_written_only_with_creation
      (SyncOptions.mk CommandOutput.Normal false SyncMode.Regular false)
      baseEnv).1 ⟨3, 11, 4⟩ (by decide)

end Rye
